import Mathlib

/-!
Shallow embedding of the device control core of `src/server.js`
(the "2.2.0-two-way" backend): the control document data model, the
cache-aside read helper `getControlState`, the `POST /api/control`
command handler, and the pressure-washer safety sweeper that runs on a
`setInterval`.

Timestamps are modelled as `Int` milliseconds since the epoch (the value
of `Date.prototype.getTime`).  The MongoDB store holds at most one
control document and is modelled as `Option ControlDoc`; the
`node-cache` entry under the key `"control_state"` is modelled as
`Option ControlDoc` as well.  The cache TTL only turns extra hits into
misses and none of the properties below depend on it, so it is not
modelled.  Store reads, persisted writes and cache invalidations are
reported as an explicit event list.
-/

namespace PoultryControl

/-- Device mode as constrained by the mongoose schema enum
`["AUTO", "FORCE_ON", "FORCE_OFF"]`. -/
inductive Mode
  | AUTO
  | FORCE_ON
  | FORCE_OFF
deriving DecidableEq, Repr

/-- Actuator state as constrained by the schema enum `["ON", "OFF"]`. -/
inductive Power
  | ON
  | OFF
deriving DecidableEq, Repr

/-- The `{mode, state}` sub-document used for `light`, `fan_positive`
and `fan_negative`. -/
structure Device where
  mode : Mode
  state : Power
deriving DecidableEq, Repr

/-- The `pressure_washer` sub-document: `{mode, state, timerDuration,
timerStartedAt, timerExpiresAt}`.  `timerDuration` is in seconds;
the two timestamps are epoch milliseconds, `none` modelling `null`. -/
structure PressureWasher where
  mode : Mode
  state : Power
  timerDuration : Int
  timerStartedAt : Option Int
  timerExpiresAt : Option Int
deriving DecidableEq, Repr

/-- The control document of `controlSchema`, including the legacy
backward-compatibility fields `fanIntake`, `fanExhaust`, `mode`. -/
structure ControlDoc where
  light : Device
  fan_positive : Device
  fan_negative : Device
  pressure_washer : PressureWasher
  fanIntake : String
  fanExhaust : String
  mode : String
  updatedAt : Int
deriving DecidableEq, Repr

/-- Joint state of the persistent store (the single `ControlState`
document, or none) and the `"control_state"` cache entry. -/
structure SysState where
  store : Option ControlDoc
  cache : Option ControlDoc
deriving DecidableEq, Repr

/-- Observable side effects on store and cache. -/
inductive Event
  | storeRead
  | storeWrite
  | cacheDel
deriving DecidableEq, Repr

/-- The document built by `ControlState.create` inside
`getControlState` when no document exists (all schema defaults);
`updatedAt` defaults to the creation time. -/
def defaultControl (now : Int) : ControlDoc :=
  { light := { mode := Mode.AUTO, state := Power.OFF }
    fan_positive := { mode := Mode.AUTO, state := Power.OFF }
    fan_negative := { mode := Mode.AUTO, state := Power.OFF }
    pressure_washer :=
      { mode := Mode.FORCE_OFF
        state := Power.OFF
        timerDuration := 0
        timerStartedAt := none
        timerExpiresAt := none }
    fanIntake := "OFF"
    fanExhaust := "OFF"
    mode := "AUTO"
    updatedAt := now }

/-- `getControlState()`: cache-first read.  On a cache hit the cached
document is returned as is; on a miss the store is read
(`ControlState.findOne`), a default document is created and persisted
if none exists, and the result is placed in the cache. -/
def getControlState (now : Int) (s : SysState) :
    ControlDoc × SysState × List Event :=
  match s.cache with
  | some cached => (cached, s, [])
  | none =>
      match s.store with
      | some control =>
          (control, { s with cache := some control }, [Event.storeRead])
      | none =>
          let control := defaultControl now
          (control, { store := some control, cache := some control },
            [Event.storeRead, Event.storeWrite])

/-- `validDevices` from the command handler. -/
def validDevices : List String :=
  ["light", "fan_positive", "fan_negative", "pressure_washer"]

/-- `validModes` from the command handler. -/
def validModes : List String :=
  ["AUTO", "FORCE_ON", "FORCE_OFF"]

/-- Interpretation of a validated mode string (only applied to members
of `validModes`). -/
def modeOfString (ms : String) : Mode :=
  if ms = "AUTO" then Mode.AUTO
  else if ms = "FORCE_ON" then Mode.FORCE_ON
  else Mode.FORCE_OFF

/-- `parseInt(timerDuration) || 300`: a missing (or non-numeric) value
and a parsed `0` both fall back to the default 300, any other parsed
integer is taken as is. -/
def parseIntDefault (td : Option Int) : Int :=
  match td with
  | none => 300
  | some n => if n = 0 then 300 else n

/-- `control[device].mode = mode` followed by the shared
`FORCE_ON`/`FORCE_OFF` state assignment, for a plain device. -/
def applyModeDevice (d : Device) (m : Mode) : Device :=
  let d1 : Device := { d with mode := m }
  match m with
  | Mode.FORCE_ON => { d1 with state := Power.ON }
  | Mode.FORCE_OFF => { d1 with state := Power.OFF }
  | Mode.AUTO => d1

/-- The same mode/state assignment for `pressure_washer`, followed by
the pressure-washer timer block: on `FORCE_ON` set
`timerDuration = parseInt(timerDuration) || 300`,
`timerStartedAt = now`, `timerExpiresAt = now + duration * 1000`;
on `FORCE_OFF` zero/null all three timer fields. -/
def applyModeWasher (now : Int) (td : Option Int)
    (w : PressureWasher) (m : Mode) : PressureWasher :=
  let w1 : PressureWasher := { w with mode := m }
  let w2 : PressureWasher :=
    match m with
    | Mode.FORCE_ON => { w1 with state := Power.ON }
    | Mode.FORCE_OFF => { w1 with state := Power.OFF }
    | Mode.AUTO => w1
  match m with
  | Mode.FORCE_ON =>
      let duration := parseIntDefault td
      { w2 with
        timerDuration := duration
        timerStartedAt := some now
        timerExpiresAt := some (now + duration * 1000) }
  | Mode.FORCE_OFF =>
      { w2 with
        timerDuration := 0
        timerStartedAt := none
        timerExpiresAt := none }
  | Mode.AUTO => w2

/-- The in-memory mutation performed by the command handler on the
document returned by `getControlState`, including the final
`control.updatedAt = new Date()`. -/
def updateDoc (now : Int) (device : String) (m : Mode)
    (td : Option Int) (c : ControlDoc) : ControlDoc :=
  let c1 : ControlDoc :=
    if device = "light" then
      { c with light := applyModeDevice c.light m }
    else if device = "fan_positive" then
      { c with fan_positive := applyModeDevice c.fan_positive m }
    else if device = "fan_negative" then
      { c with fan_negative := applyModeDevice c.fan_negative m }
    else if device = "pressure_washer" then
      { c with pressure_washer := applyModeWasher now td c.pressure_washer m }
    else c
  { c1 with updatedAt := now }

/-- Failure outcomes of `POST /api/control`: the three specific
validation errors (HTTP 400 with a distinct message each) and the
generic `"Server error"` (HTTP 500) produced by the catch block. -/
inductive ApiError
  | invalidDevice
  | invalidMode
  | washerAutoRejected
  | serverError
deriving DecidableEq, Repr

/-- The `POST /api/control` handler on the success path of `save()`:
validate device, mode, and the pressure-washer/AUTO combination; on
validation failure return the specific error having touched neither
store nor cache; otherwise read via `getControlState`, mutate, persist
(`control.save()`), and invalidate the cache (`cache.del`). -/
def apply_command (now : Int) (device ms : String) (td : Option Int)
    (s : SysState) : Except ApiError ControlDoc × SysState × List Event :=
  if device ∈ validDevices then
    if ms ∈ validModes then
      if device = "pressure_washer" ∧ ms = "AUTO" then
        (Except.error ApiError.washerAutoRejected, s, [])
      else
        let r := getControlState now s
        let doc := updateDoc now device (modeOfString ms) td r.1
        (Except.ok doc, { store := some doc, cache := none },
          r.2.2 ++ [Event.storeWrite, Event.cacheDel])
    else (Except.error ApiError.invalidMode, s, [])
  else (Except.error ApiError.invalidDevice, s, [])

/-- The same handler when `control.save()` rejects: the catch block
returns the generic `"Server error"` and `cache.del("control_state")`
is never executed.  Because the cache hands out its entry by reference
(`useClones: false`) and `getControlState` has just placed the very
document the handler mutates into the cache, the cache entry holds the
mutated document after the failure, while the store keeps the value it
had after `getControlState` (the failed save persists nothing). -/
def apply_command_saveFail (now : Int) (device ms : String)
    (td : Option Int) (s : SysState) :
    Except ApiError ControlDoc × SysState × List Event :=
  if device ∈ validDevices then
    if ms ∈ validModes then
      if device = "pressure_washer" ∧ ms = "AUTO" then
        (Except.error ApiError.washerAutoRejected, s, [])
      else
        let r := getControlState now s
        let doc := updateDoc now device (modeOfString ms) td r.1
        (Except.error ApiError.serverError,
          { store := r.2.1.store, cache := some doc }, r.2.2)
    else (Except.error ApiError.invalidMode, s, [])
  else (Except.error ApiError.invalidDevice, s, [])

/-- One tick of the pressure-washer safety `setInterval`: read the
document directly from the store (`ControlState.findOne`, no cache);
if none exists do nothing; if the washer is `ON`, `timerExpiresAt` is
non-null and `now >= timerExpiresAt`, force it off, clear the timer
fields, stamp `updatedAt`, persist and invalidate the cache; otherwise
do nothing. -/
def sweeperTick (now : Int) (s : SysState) : SysState :=
  match s.store with
  | none => s
  | some control =>
      match control.pressure_washer.timerExpiresAt with
      | none => s
      | some expiresAt =>
          if control.pressure_washer.state = Power.ON ∧ expiresAt ≤ now then
            let doc : ControlDoc :=
              { control with
                pressure_washer :=
                  { control.pressure_washer with
                    mode := Mode.FORCE_OFF
                    state := Power.OFF
                    timerDuration := 0
                    timerStartedAt := none
                    timerExpiresAt := none }
                updatedAt := now }
            { store := some doc, cache := none }
          else s

/-- Accessor for the three plain devices, keyed the way the handler
indexes `control[device]`. -/
def getDevice (device : String) (c : ControlDoc) : Device :=
  if device = "light" then c.light
  else if device = "fan_positive" then c.fan_positive
  else c.fan_negative

/-- Per-device schema invariant: a forced mode pins the state. -/
def deviceInv (d : Device) : Prop :=
  (d.mode = Mode.FORCE_ON → d.state = Power.ON) ∧
  (d.mode = Mode.FORCE_OFF → d.state = Power.OFF)

instance (d : Device) : Decidable (deviceInv d) := by
  unfold deviceInv; infer_instance

/-- Pressure-washer invariant: forced modes pin the state, and an OFF
washer has no timer (`timerDuration = 0`, both timestamps null). -/
def washerInv (w : PressureWasher) : Prop :=
  (w.mode = Mode.FORCE_ON → w.state = Power.ON) ∧
  (w.mode = Mode.FORCE_OFF → w.state = Power.OFF) ∧
  (w.state = Power.OFF →
    w.timerDuration = 0 ∧ w.timerStartedAt = none ∧ w.timerExpiresAt = none)

instance (w : PressureWasher) : Decidable (washerInv w) := by
  unfold washerInv; infer_instance

/-- Invariant of a whole control document. -/
def docInv (c : ControlDoc) : Prop :=
  deviceInv c.light ∧ deviceInv c.fan_positive ∧
  deviceInv c.fan_negative ∧ washerInv c.pressure_washer

instance (c : ControlDoc) : Decidable (docInv c) := by
  unfold docInv; infer_instance

/-- An absent document vacuously satisfies the invariant. -/
def optDocInv : Option ControlDoc → Prop
  | none => True
  | some c => docInv c

instance (o : Option ControlDoc) : Decidable (optDocInv o) := by
  cases o <;> unfold optDocInv <;> infer_instance

/-- Every document reachable from the system state (stored or cached)
satisfies the invariant. -/
def sysInv (s : SysState) : Prop :=
  optDocInv s.store ∧ optDocInv s.cache

instance (s : SysState) : Decidable (sysInv s) := by
  unfold sysInv; infer_instance

/-- Concrete state used by witnesses: the store holds the default
document created at time 0, the cache is empty. -/
def sDefault : SysState :=
  { store := some (defaultControl 0), cache := none }

/-- Concrete state used by witnesses: no document exists yet. -/
def sEmpty : SysState := { store := none, cache := none }

/-- Concrete document with the pressure washer ON and its timer expired
at epoch millisecond 1000. -/
def docExpired : ControlDoc :=
  { defaultControl 0 with
    pressure_washer :=
      { mode := Mode.FORCE_ON
        state := Power.ON
        timerDuration := 1
        timerStartedAt := some 0
        timerExpiresAt := some 1000 } }

/-- Concrete system state with `docExpired` in the store. -/
def sExpired : SysState := { store := some docExpired, cache := none }

/-! ## Helper lemmas -/

theorem mem_validDevices_iff (device : String) :
    device ∈ validDevices ↔
      device = "light" ∨ device = "fan_positive" ∨
      device = "fan_negative" ∨ device = "pressure_washer" := by
  simp [validDevices]

theorem mem_validModes_iff (ms : String) :
    ms ∈ validModes ↔
      ms = "AUTO" ∨ ms = "FORCE_ON" ∨ ms = "FORCE_OFF" := by
  simp [validModes]

theorem applyModeDevice_inv (d : Device) (m : Mode) :
    deviceInv (applyModeDevice d m) := by
  cases m <;> simp [applyModeDevice, deviceInv]

theorem applyModeWasher_inv (now : Int) (td : Option Int)
    (w : PressureWasher) (m : Mode) (h : washerInv w) :
    washerInv (applyModeWasher now td w m) := by
  cases m <;> simp [applyModeWasher, washerInv] at h ⊢
  exact h.2.2

theorem defaultControl_inv (now : Int) : docInv (defaultControl now) := by
  simp [docInv, deviceInv, washerInv, defaultControl]

theorem updateDoc_inv (now : Int) (device : String) (m : Mode)
    (td : Option Int) (c : ControlDoc) (h : docInv c) :
    docInv (updateDoc now device m td c) := by
  obtain ⟨h1, h2, h3, h4⟩ := h
  unfold updateDoc
  split_ifs <;>
    simp [docInv, h1, h2, h3, h4, applyModeDevice_inv, applyModeWasher_inv]

theorem getControlState_inv (now : Int) (s : SysState) (hs : sysInv s) :
    docInv (getControlState now s).1 ∧ sysInv (getControlState now s).2.1 := by
  obtain ⟨store, cache⟩ := s
  obtain ⟨hstore, hcache⟩ := hs
  cases cache with
  | some cached => exact ⟨hcache, hstore, hcache⟩
  | none =>
      cases store with
      | some control =>
          exact ⟨hstore, hstore, hstore⟩
      | none =>
          refine ⟨defaultControl_inv now, ?_, ?_⟩ <;>
            simp [getControlState, optDocInv, sysInv, defaultControl_inv]

theorem applyModeDevice_idem (d : Device) (m : Mode) :
    applyModeDevice (applyModeDevice d m) m = applyModeDevice d m := by
  cases m <;> rfl

theorem applyModeWasher_idem (now : Int) (td : Option Int)
    (w : PressureWasher) (m : Mode) :
    applyModeWasher now td (applyModeWasher now td w m) m =
      applyModeWasher now td w m := by
  cases m <;> rfl

theorem updateDoc_idem (now : Int) (device : String) (m : Mode)
    (td : Option Int) (c : ControlDoc) :
    updateDoc now device m td (updateDoc now device m td c) =
      updateDoc now device m td c := by
  unfold updateDoc
  split_ifs <;> simp [applyModeDevice_idem, applyModeWasher_idem]

/-! ## Claim theorems -/

/-- C5: `apply_command` with an unknown device fails with the specific
`invalidDevice` error, with an unknown mode with the specific
`invalidMode` error, and with `AUTO` for `pressure_washer` with the
specific `washerAutoRejected` error; in each case no store read or
write event occurs and the system state is returned unchanged. -/
theorem validation_failure_no_effect (now : Int) (device ms : String)
    (td : Option Int) (s : SysState) :
    (device ∉ validDevices →
      apply_command now device ms td s =
        (Except.error ApiError.invalidDevice, s, [])) ∧
    (device ∈ validDevices → ms ∉ validModes →
      apply_command now device ms td s =
        (Except.error ApiError.invalidMode, s, [])) ∧
    apply_command now "pressure_washer" "AUTO" td s =
      (Except.error ApiError.washerAutoRejected, s, []) := by
  refine ⟨?_, ?_, ?_⟩
  · intro h
    simp [apply_command, h]
  · intro h1 h2
    simp [apply_command, h1, h2]
  · simp [apply_command, validDevices, validModes]

/-- Witness for `validation_failure_no_effect` at concrete inputs:
an unknown device, an unknown mode, and the washer/AUTO combination. -/
theorem validation_failure_no_effect_witness :
    ("heater" ∉ validDevices ∧ "BLINK" ∉ validModes) ∧
    apply_command 0 "heater" "FORCE_ON" none sDefault =
      (Except.error ApiError.invalidDevice, sDefault, []) ∧
    apply_command 0 "light" "BLINK" none sDefault =
      (Except.error ApiError.invalidMode, sDefault, []) ∧
    apply_command 0 "pressure_washer" "AUTO" none sDefault =
      (Except.error ApiError.washerAutoRejected, sDefault, []) :=
  ⟨⟨by decide, by decide⟩,
    (validation_failure_no_effect 0 "heater" "FORCE_ON" none sDefault).1
      (by decide),
    (validation_failure_no_effect 0 "light" "BLINK" none sDefault).2.1
      (by decide) (by decide),
    (validation_failure_no_effect 0 "pressure_washer" "AUTO" none
      sDefault).2.2⟩

/-- C1: a `sweeperTick` is driven solely by the store (the cache is
bypassed); with no document it is a no-op; when the washer is ON with a
set and expired timer it forces the washer off (`state = OFF`,
`mode = FORCE_OFF`), clears the three timer fields, stamps `updatedAt`,
persists the document and invalidates the cache — and a second tick at
any later instant leaves the result identical; in every other case the
tick is a no-op. -/
theorem sweeper_tick_correct (now now2 : Int) (s : SysState) :
    (∀ cc : Option ControlDoc,
      (sweeperTick now { store := s.store, cache := cc }).store =
        (sweeperTick now s).store) ∧
    (s.store = none → sweeperTick now s = s) ∧
    (∀ c e, s.store = some c →
      c.pressure_washer.state = Power.ON →
      c.pressure_washer.timerExpiresAt = some e →
      e ≤ now →
      sweeperTick now s =
        { store := some
            { c with
              pressure_washer :=
                { c.pressure_washer with
                  mode := Mode.FORCE_OFF
                  state := Power.OFF
                  timerDuration := 0
                  timerStartedAt := none
                  timerExpiresAt := none }
              updatedAt := now }
          cache := none } ∧
      sweeperTick now2 (sweeperTick now s) = sweeperTick now s) ∧
    (∀ c, s.store = some c →
      ¬(c.pressure_washer.state = Power.ON ∧
        ∃ e, c.pressure_washer.timerExpiresAt = some e ∧ e ≤ now) →
      sweeperTick now s = s) := by
  obtain ⟨store, cache⟩ := s
  refine ⟨?_, ?_, ?_, ?_⟩
  · intro cc
    cases store with
    | none => rfl
    | some c =>
        simp only [sweeperTick]
        split
        · rfl
        · split_ifs <;> rfl
  · intro h
    simp only at h
    subst h
    rfl
  · intro c e hstore hon hexp hle
    simp only at hstore
    subst hstore
    have hfire :
        sweeperTick now { store := some c, cache := cache } =
          { store := some
              { c with
                pressure_washer :=
                  { c.pressure_washer with
                    mode := Mode.FORCE_OFF
                    state := Power.OFF
                    timerDuration := 0
                    timerStartedAt := none
                    timerExpiresAt := none }
                updatedAt := now }
            cache := none } := by
      simp only [sweeperTick, hexp]
      rw [if_pos ⟨hon, hle⟩]
    refine ⟨hfire, ?_⟩
    rw [hfire]
    rfl
  · intro c hstore hnot
    simp only at hstore
    subst hstore
    cases hexp : c.pressure_washer.timerExpiresAt with
    | none => simp [sweeperTick, hexp]
    | some e =>
        simp only [sweeperTick, hexp]
        rw [if_neg]
        intro ⟨h1, h2⟩
        exact hnot ⟨h1, e, hexp, h2⟩

/-- Witness for `sweeper_tick_correct`: at time 2000 the timer of
`docExpired` (expiry 1000) has elapsed, one tick forces the washer off
and clears the timer, and a second tick at time 12000 changes
nothing. -/
theorem sweeper_tick_correct_witness :
    (docExpired.pressure_washer.state = Power.ON ∧
      docExpired.pressure_washer.timerExpiresAt = some 1000 ∧
      (1000 : Int) ≤ 2000) ∧
    sweeperTick 2000 sExpired =
      { store := some
          { docExpired with
            pressure_washer :=
              { docExpired.pressure_washer with
                mode := Mode.FORCE_OFF
                state := Power.OFF
                timerDuration := 0
                timerStartedAt := none
                timerExpiresAt := none }
            updatedAt := 2000 }
        cache := none } ∧
    sweeperTick 12000 (sweeperTick 2000 sExpired) = sweeperTick 2000 sExpired :=
  ⟨⟨by decide, by decide, by decide⟩,
    (sweeper_tick_correct 2000 12000 sExpired).2.2.1 docExpired 1000
      rfl (by decide) (by decide) (by decide)⟩

/-- C2: every mutation of the control document preserves the state
invariants: the lazily created default document satisfies them, and
both an `apply_command` call (in particular every successful one; a
failed one returns the state untouched) and a `sweeperTick` map a
state whose stored and cached documents satisfy them to a state whose
documents still do — for each device `FORCE_ON` pins `state = ON` and
`FORCE_OFF` pins `state = OFF`, and an OFF pressure washer has
`timerDuration = 0` and null `timerStartedAt`/`timerExpiresAt`. -/
theorem mutators_preserve_invariants (now : Int) (device ms : String)
    (td : Option Int) (s : SysState) (hs : sysInv s) :
    docInv (defaultControl now) ∧
    sysInv (apply_command now device ms td s).2.1 ∧
    sysInv (sweeperTick now s) := by
  refine ⟨defaultControl_inv now, ?_, ?_⟩
  · by_cases hd : device ∈ validDevices
    · by_cases hm : ms ∈ validModes
      · by_cases hpa : device = "pressure_washer" ∧ ms = "AUTO"
        · simpa [apply_command, hd, hm, hpa] using hs
        · have h1 := (getControlState_inv now s hs).1
          simp only [apply_command, if_pos hd, if_pos hm, if_neg hpa]
          exact ⟨updateDoc_inv _ _ _ _ _ h1, trivial⟩
      · simpa [apply_command, hd, hm] using hs
    · simpa [apply_command, hd] using hs
  · obtain ⟨store, cache⟩ := s
    obtain ⟨hstore, hcache⟩ := hs
    cases store with
    | none => exact ⟨hstore, hcache⟩
    | some c =>
        cases hexp : c.pressure_washer.timerExpiresAt with
        | none => simpa [sweeperTick, hexp] using ⟨hstore, hcache⟩
        | some e =>
            simp only [sweeperTick, hexp]
            split_ifs with hc
            · obtain ⟨h1, h2, h3, _⟩ := hstore
              exact ⟨⟨h1, h2, h3, by simp [washerInv]⟩, trivial⟩
            · exact ⟨hstore, hcache⟩

/-- Witness for `mutators_preserve_invariants`: the default store state
satisfies the invariants, and so do the default document created at
time 5, the state after `light FORCE_ON`, and the state after a
sweeper tick. -/
theorem mutators_preserve_invariants_witness :
    sysInv sDefault ∧
    (docInv (defaultControl 5) ∧
      sysInv (apply_command 5 "light" "FORCE_ON" none sDefault).2.1 ∧
      sysInv (sweeperTick 5 sDefault)) :=
  ⟨by decide,
    mutators_preserve_invariants 5 "light" "FORCE_ON" none sDefault (by decide)⟩

/-- C3: for each of `light`, `fan_positive`, `fan_negative` and any
prior system state, `apply_command` with `FORCE_ON` succeeds and leaves
the device `ON`, with `FORCE_OFF` succeeds and leaves it `OFF`, and
with `AUTO` succeeds, sets the device mode to `AUTO` and leaves its
state exactly as in the document the command read. -/
theorem plain_device_command (now : Int) (device : String)
    (td1 td2 td3 : Option Int) (s : SysState)
    (hdev : device = "light" ∨ device = "fan_positive" ∨
      device = "fan_negative") :
    (∃ doc, (apply_command now device "FORCE_ON" td1 s).1 = Except.ok doc ∧
      (getDevice device doc).state = Power.ON) ∧
    (∃ doc, (apply_command now device "FORCE_OFF" td2 s).1 = Except.ok doc ∧
      (getDevice device doc).state = Power.OFF) ∧
    (∃ doc, (apply_command now device "AUTO" td3 s).1 = Except.ok doc ∧
      (getDevice device doc).mode = Mode.AUTO ∧
      (getDevice device doc).state =
        (getDevice device (getControlState now s).1).state) := by
  rcases hdev with h | h | h <;> subst h <;>
    refine ⟨⟨_, rfl, ?_⟩, ⟨_, rfl, ?_⟩, ⟨_, rfl, ?_, ?_⟩⟩ <;>
    simp [updateDoc, modeOfString, applyModeDevice, getDevice]

/-- Witness for `plain_device_command` at `fan_positive` on the default
state: `FORCE_ON` yields an `ON` fan. -/
theorem plain_device_command_witness :
    ("fan_positive" = "light" ∨ "fan_positive" = "fan_positive" ∨
      "fan_positive" = "fan_negative") ∧
    (∃ doc, (apply_command 3 "fan_positive" "FORCE_ON" none sDefault).1 =
        Except.ok doc ∧
      (getDevice "fan_positive" doc).state = Power.ON) :=
  ⟨by decide,
    (plain_device_command 3 "fan_positive" none none none sDefault
      (by decide)).1⟩

/-- C4 counterexample: submitting `pressure_washer FORCE_ON` with the
supplied duration 0 stores `timerDuration = 300`, not the supplied
value 0 — `parseInt(timerDuration) || 300` treats 0 as absent — so the
claim that a supplied value is always taken as is fails. -/
theorem washer_zero_duration_counterexample :
    (apply_command 0 "pressure_washer" "FORCE_ON" (some 0) sDefault).1.map
        (fun d => d.pressure_washer.timerDuration) = Except.ok 300 ∧
    (300 : Int) ≠ 0 :=
  ⟨rfl, by decide⟩

/-- C4 (amended): a `pressure_washer FORCE_ON` command succeeds and
sets `state = ON`, `timerDuration` to the supplied value when a
nonzero value is supplied and to the default 300 when the value is
absent or 0, `timerStartedAt = now`, and `timerExpiresAt` exactly
`timerDuration` seconds after `timerStartedAt`; a `FORCE_OFF` command
succeeds and zeroes/nulls all three timer fields regardless of the
prior state. -/
theorem washer_timer_fields (now : Int) (td td2 : Option Int)
    (s s2 : SysState) :
    (∃ doc, (apply_command now "pressure_washer" "FORCE_ON" td s).1 =
        Except.ok doc ∧
      doc.pressure_washer.state = Power.ON ∧
      ((td = none ∨ td = some 0) → doc.pressure_washer.timerDuration = 300) ∧
      (∀ n : Int, td = some n → n ≠ 0 →
        doc.pressure_washer.timerDuration = n) ∧
      doc.pressure_washer.timerStartedAt = some now ∧
      doc.pressure_washer.timerExpiresAt =
        some (now + doc.pressure_washer.timerDuration * 1000)) ∧
    (∃ doc, (apply_command now "pressure_washer" "FORCE_OFF" td2 s2).1 =
        Except.ok doc ∧
      doc.pressure_washer.state = Power.OFF ∧
      doc.pressure_washer.timerDuration = 0 ∧
      doc.pressure_washer.timerStartedAt = none ∧
      doc.pressure_washer.timerExpiresAt = none) := by
  constructor
  · refine ⟨_, rfl, ?_, ?_, ?_, ?_, ?_⟩ <;>
      simp [updateDoc, modeOfString, applyModeWasher, parseIntDefault]
    · rintro (h | h) <;> simp [h]
    · rintro n rfl hn
      simp [hn]
  · refine ⟨_, rfl, ?_, ?_, ?_, ?_⟩ <;>
      simp [updateDoc, modeOfString, applyModeWasher]

/-- Witness for `washer_timer_fields`: the spec's own example, duration
120 at time 7: the stored duration is 120 and the expiry is exactly
120 seconds (120000 ms) after the start. -/
theorem washer_timer_fields_witness :
    some (120 : Int) = some 120 ∧ (120 : Int) ≠ 0 ∧
    (∃ doc, (apply_command 7 "pressure_washer" "FORCE_ON" (some 120)
        sDefault).1 = Except.ok doc ∧
      doc.pressure_washer.state = Power.ON ∧
      ((some (120 : Int) = none ∨ some (120 : Int) = some 0) →
        doc.pressure_washer.timerDuration = 300) ∧
      (∀ n : Int, some (120 : Int) = some n → n ≠ 0 →
        doc.pressure_washer.timerDuration = n) ∧
      doc.pressure_washer.timerStartedAt = some 7 ∧
      doc.pressure_washer.timerExpiresAt =
        some (7 + doc.pressure_washer.timerDuration * 1000)) :=
  ⟨rfl, by decide,
    (washer_timer_fields 7 (some 120) none sDefault sEmpty).1⟩

/-- C6: after a successful `apply_command` (persist then cache
invalidation) the cache-first read path returns exactly the document
the command just wrote, at any later instant; likewise, after a
`sweeperTick` that wrote (i.e. changed the state), the read path
returns exactly the document the sweeper stored — no superseded value
is ever served. -/
theorem read_after_write_fresh (now now2 : Int) (device ms : String)
    (td : Option Int) (s : SysState) :
    (∀ doc s2 ev,
      apply_command now device ms td s = (Except.ok doc, s2, ev) →
      (getControlState now2 s2).1 = doc) ∧
    (∀ doc, (sweeperTick now s).store = some doc →
      sweeperTick now s ≠ s →
      (getControlState now2 (sweeperTick now s)).1 = doc) := by
  constructor
  · intro doc s2 ev h
    by_cases hd : device ∈ validDevices
    · by_cases hm : ms ∈ validModes
      · by_cases hpa : device = "pressure_washer" ∧ ms = "AUTO"
        · simp [apply_command, hd, hm, hpa, validDevices, validModes] at h
        · simp only [apply_command, if_pos hd, if_pos hm, if_neg hpa,
            Prod.mk.injEq, Except.ok.injEq] at h
          obtain ⟨hdoc, hs2, -⟩ := h
          subst hs2
          simpa [getControlState] using hdoc
      · simp [apply_command, hd, hm] at h
    · simp [apply_command, hd] at h
  · intro doc hstore hne
    obtain ⟨store, cache⟩ := s
    cases store with
    | none => exact absurd rfl hne
    | some c =>
        cases hexp : c.pressure_washer.timerExpiresAt with
        | none => exact absurd (by simp [sweeperTick, hexp]) hne
        | some e =>
            by_cases hc : c.pressure_washer.state = Power.ON ∧ e ≤ now
            · simp only [sweeperTick, hexp, if_pos hc,
                Option.some.injEq] at hstore ⊢
              simpa [getControlState] using hstore
            · exact absurd (by simp [sweeperTick, hexp, if_neg hc]) hne

/-- Witness for `read_after_write_fresh`: a command-path read after
`light FORCE_ON` on the default state, and a sweeper-path read after
the expired-timer tick on `sExpired`. -/
theorem read_after_write_fresh_witness :
    (getControlState 9
        ((apply_command 4 "light" "FORCE_ON" none sDefault).2.1)).1 =
      updateDoc 4 "light" Mode.FORCE_ON none (defaultControl 0) ∧
    (getControlState 9 (sweeperTick 2000 sExpired)).1 =
      { docExpired with
        pressure_washer :=
          { mode := Mode.FORCE_OFF
            state := Power.OFF
            timerDuration := 0
            timerStartedAt := none
            timerExpiresAt := none }
        updatedAt := 2000 } :=
  ⟨(read_after_write_fresh 4 9 "light" "FORCE_ON" none sDefault).1 _ _ _ rfl,
    (read_after_write_fresh 2000 9 "x" "x" none sExpired).2 _ rfl (by decide)⟩

/-- C7 (evaluating the code at the failing input): on the default state
a `light FORCE_ON` command whose `save()` fails returns the generic
server error and does not change the store — but the handler has
already mutated the document that `getControlState` placed in the
cache by reference, and `cache.del` is never reached, so an immediate
subsequent read serves `light.state = ON` although the read before the
command served `light.state = OFF` and the store still holds `OFF`:
a partial, never-persisted state change is observable, contradicting
the claim. -/
theorem save_failure_serves_unsaved_state :
    (apply_command_saveFail 5000 "light" "FORCE_ON" none sDefault).1 =
      Except.error ApiError.serverError ∧
    (apply_command_saveFail 5000 "light" "FORCE_ON" none sDefault).2.1.store =
      some (defaultControl 0) ∧
    (getControlState 0 sDefault).1.light.state = Power.OFF ∧
    (getControlState 5000
        ((apply_command_saveFail 5000 "light" "FORCE_ON" none
          sDefault).2.1)).1.light.state = Power.ON :=
  ⟨rfl, rfl, rfl, rfl⟩

/-- C8 counterexample: starting from the state with no control
document, a successful `light FORCE_ON` command performs two persisted
writes — the lazy default creation inside `getControlState` and the
command's own save — not exactly one. -/
theorem single_write_counterexample :
    (apply_command 0 "light" "FORCE_ON" none sEmpty).1 =
      Except.ok (updateDoc 0 "light" Mode.FORCE_ON none (defaultControl 0)) ∧
    List.count Event.storeWrite
      (apply_command 0 "light" "FORCE_ON" none sEmpty).2.2 = 2 ∧
    (2 : Nat) ≠ 1 :=
  ⟨rfl, rfl, by decide⟩

/-- C8 (amended): every successful `apply_command` performs exactly one
cache invalidation; it performs exactly one persisted write whenever a
control document is already cached or stored, and exactly two writes
(the lazy default creation plus the command's save) when no document
exists yet. -/
theorem effect_counts (now : Int) (device ms : String) (td : Option Int)
    (s : SysState) :
    ∀ doc s2 ev, apply_command now device ms td s = (Except.ok doc, s2, ev) →
      List.count Event.cacheDel ev = 1 ∧
      (¬(s.cache = none ∧ s.store = none) →
        List.count Event.storeWrite ev = 1) ∧
      (s.cache = none ∧ s.store = none →
        List.count Event.storeWrite ev = 2) := by
  intro doc s2 ev h
  by_cases hd : device ∈ validDevices
  · by_cases hm : ms ∈ validModes
    · by_cases hpa : device = "pressure_washer" ∧ ms = "AUTO"
      · simp [apply_command, hd, hm, hpa, validDevices, validModes] at h
      · simp only [apply_command, if_pos hd, if_pos hm, if_neg hpa,
          Prod.mk.injEq, Except.ok.injEq] at h
        obtain ⟨-, -, hev⟩ := h
        subst hev
        obtain ⟨store, cache⟩ := s
        cases cache with
        | some c0 =>
            exact ⟨rfl, fun _ => rfl,
              fun hh => absurd hh.1 (fun hx => Option.noConfusion hx)⟩
        | none =>
            cases store with
            | some c0 =>
                exact ⟨rfl, fun _ => rfl,
                  fun hh => absurd hh.2 (fun hx => Option.noConfusion hx)⟩
            | none => exact ⟨rfl, fun hh => absurd ⟨rfl, rfl⟩ hh, fun _ => rfl⟩
    · simp [apply_command, hd, hm] at h
  · simp [apply_command, hd] at h

/-- Witness for `effect_counts`: on the default state (document stored,
cache empty) a `light FORCE_ON` command emits exactly one write and one
invalidation. -/
theorem effect_counts_witness :
    ¬(sDefault.cache = none ∧ sDefault.store = none) ∧
    List.count Event.cacheDel
      (apply_command 4 "light" "FORCE_ON" none sDefault).2.2 = 1 ∧
    List.count Event.storeWrite
      (apply_command 4 "light" "FORCE_ON" none sDefault).2.2 = 1 :=
  have h := effect_counts 4 "light" "FORCE_ON" none sDefault _ _ _ rfl
  ⟨by decide, h.1, h.2.1 (by decide)⟩

/-- C9: repeating an identical successful command at the same instant
is idempotent — the second run succeeds, returns the same document, and
leaves the stored/cached state exactly as after the first run. -/
theorem command_idempotent (now : Int) (device ms : String)
    (td : Option Int) (s : SysState) :
    ∀ doc s2 ev, apply_command now device ms td s = (Except.ok doc, s2, ev) →
      (apply_command now device ms td s2).1 = Except.ok doc ∧
      (apply_command now device ms td s2).2.1 = s2 := by
  intro doc s2 ev h
  by_cases hd : device ∈ validDevices
  · by_cases hm : ms ∈ validModes
    · by_cases hpa : device = "pressure_washer" ∧ ms = "AUTO"
      · simp [apply_command, hd, hm, hpa, validDevices, validModes] at h
      · simp only [apply_command, if_pos hd, if_pos hm, if_neg hpa,
          Prod.mk.injEq, Except.ok.injEq] at h
        obtain ⟨hdoc, hs2, -⟩ := h
        subst hs2
        have hread : (getControlState now
            { store := some (updateDoc now device (modeOfString ms) td
                (getControlState now s).1), cache := none }).1 =
            updateDoc now device (modeOfString ms) td
              (getControlState now s).1 := rfl
        refine ⟨?_, ?_⟩
        · simp only [apply_command, if_pos hd, if_pos hm, if_neg hpa]
          rw [hread, updateDoc_idem, hdoc]
        · simp only [apply_command, if_pos hd, if_pos hm, if_neg hpa]
          rw [hread, updateDoc_idem]
    · simp [apply_command, hd, hm] at h
  · simp [apply_command, hd] at h

/-- Witness for `command_idempotent`: `fan_negative FORCE_OFF` on the
default state applied twice at time 3. -/
theorem command_idempotent_witness :
    (apply_command 3 "fan_negative" "FORCE_OFF" none
        ((apply_command 3 "fan_negative" "FORCE_OFF" none sDefault).2.1)).1 =
      Except.ok (updateDoc 3 "fan_negative" Mode.FORCE_OFF none
        (defaultControl 0)) ∧
    (apply_command 3 "fan_negative" "FORCE_OFF" none
        ((apply_command 3 "fan_negative" "FORCE_OFF" none sDefault).2.1)).2.1 =
      (apply_command 3 "fan_negative" "FORCE_OFF" none sDefault).2.1 :=
  command_idempotent 3 "fan_negative" "FORCE_OFF" none sDefault _ _ _ rfl

/-- C10: a successful command on a device changes nothing outside that
device: every other device sub-document, and the legacy `fanIntake`,
`fanExhaust` and `mode` fields, are identical to the document the
command read. -/
theorem command_frame (now : Int) (device ms : String) (td : Option Int)
    (s : SysState) :
    ∀ doc s2 ev, apply_command now device ms td s = (Except.ok doc, s2, ev) →
      (device ≠ "light" → doc.light = (getControlState now s).1.light) ∧
      (device ≠ "fan_positive" →
        doc.fan_positive = (getControlState now s).1.fan_positive) ∧
      (device ≠ "fan_negative" →
        doc.fan_negative = (getControlState now s).1.fan_negative) ∧
      (device ≠ "pressure_washer" →
        doc.pressure_washer = (getControlState now s).1.pressure_washer) ∧
      doc.fanIntake = (getControlState now s).1.fanIntake ∧
      doc.fanExhaust = (getControlState now s).1.fanExhaust ∧
      doc.mode = (getControlState now s).1.mode := by
  intro doc s2 ev h
  by_cases hd : device ∈ validDevices
  · by_cases hm : ms ∈ validModes
    · by_cases hpa : device = "pressure_washer" ∧ ms = "AUTO"
      · simp [apply_command, hd, hm, hpa, validDevices, validModes] at h
      · simp only [apply_command, if_pos hd, if_pos hm, if_neg hpa,
          Prod.mk.injEq, Except.ok.injEq] at h
        obtain ⟨hdoc, -, -⟩ := h
        subst hdoc
        rcases (mem_validDevices_iff device).1 hd with h | h | h | h <;>
          subst h <;> refine ⟨?_, ?_, ?_, ?_, ?_, ?_, ?_⟩ <;>
          simp [updateDoc]
    · simp [apply_command, hd, hm] at h
  · simp [apply_command, hd] at h

/-- Witness for `command_frame`: after `fan_positive FORCE_ON` on the
default state, `light` and the legacy `mode` field are untouched. -/
theorem command_frame_witness :
    ("fan_positive" : String) ≠ "light" ∧
    (updateDoc 6 "fan_positive" Mode.FORCE_ON none (defaultControl 0)).light =
      (getControlState 6 sDefault).1.light ∧
    (updateDoc 6 "fan_positive" Mode.FORCE_ON none (defaultControl 0)).mode =
      (getControlState 6 sDefault).1.mode :=
  have h := command_frame 6 "fan_positive" "FORCE_ON" none sDefault _ _ _ rfl
  ⟨by decide, h.1 (by decide), h.2.2.2.2.2.2⟩

end PoultryControl
